import Mathlib

/-!
# Verification of the Live Frame Stream & Windowed AI Query Engine

Shallow embedding of `src/screenpipe-app-tauri/app/timeline/page.tsx`
(the `Timeline` React component): the frame-stream ingestor, the
pointer-gesture-to-UTC range selector, and the streaming AI query engine,
together with proofs of the spec's testable properties.

Conventions of the embedding:
* A JavaScript `Date` value is its time value: an integer count of
  milliseconds since the Unix epoch (`Int`).
* The viewer's timezone is a fixed offset `off` in minutes east of UTC
  (so JavaScript's `getTimezoneOffset()` would return `-off`); DST
  transitions are outside the model.
* Percent positions along the 24-hour axis are rationals (`ℚ`), the
  idealisation of the JavaScript floating-point `clickX / width * 100`.
* React `useState` cells and `useRef` cells are fields of one record
  `TimelineState`; each event handler is a function on that record.
-/

/-! ## ECMAScript UTC calendar arithmetic

Models of the host functions `Date.prototype.getUTC*` and `Date.UTC`.
ECMAScript defines them by exact integer arithmetic on the proleptic
Gregorian calendar; we implement the field extraction with the standard
civil-from-days algorithm, which is extensionally the ECMA definition.
`/` and `%` on `Int` are Euclidean and agree with ECMA's `floor`
division and positive modulo for the positive divisors used here. -/

def msPerMinute : Int := 60000

def msPerHour : Int := 3600000

def msPerDay : Int := 86400000

/-- Calendar year of day number `z` (days since 1970-01-01). -/
def yearFromDays (z0 : Int) : Int :=
  let z := z0 + 719468
  let era := z / 146097
  let doe := z - era * 146097
  let yoe := (doe - doe / 1460 + doe / 36524 - doe / 146096) / 365
  let doy := doe - (365 * yoe + yoe / 4 - yoe / 100)
  let mp := (5 * doy + 2) / 153
  let m := if mp < 10 then mp + 3 else mp - 9
  if m ≤ 2 then yoe + era * 400 + 1 else yoe + era * 400

/-- Calendar month (1..12) of day number `z`. -/
def monthFromDays (z0 : Int) : Int :=
  let z := z0 + 719468
  let era := z / 146097
  let doe := z - era * 146097
  let yoe := (doe - doe / 1460 + doe / 36524 - doe / 146096) / 365
  let doy := doe - (365 * yoe + yoe / 4 - yoe / 100)
  let mp := (5 * doy + 2) / 153
  if mp < 10 then mp + 3 else mp - 9

/-- Day of month (1..31) of day number `z`. -/
def dayFromDays (z0 : Int) : Int :=
  let z := z0 + 719468
  let era := z / 146097
  let doe := z - era * 146097
  let yoe := (doe - doe / 1460 + doe / 36524 - doe / 146096) / 365
  let doy := doe - (365 * yoe + yoe / 4 - yoe / 100)
  let mp := (5 * doy + 2) / 153
  doy - (153 * mp + 2) / 5 + 1

/-- Day number of the calendar date `(y, m, d)` with month 1..12;
ECMA `MakeDay` restricted to in-range months (out-of-range days roll
over linearly, as in ECMA `MakeDay`). -/
def daysFromCivil (y m d : Int) : Int :=
  let y' := if m ≤ 2 then y - 1 else y
  let era := y' / 400
  let yoe := y' - era * 400
  let doy := (153 * (if m > 2 then m - 3 else m + 9) + 2) / 5 + d - 1
  let doe := yoe * 365 + yoe / 4 - yoe / 100 + doy
  era * 146097 + doe - 719468

/-! ## JavaScript `Date` model

A `Date` is its time value `t : Int` (milliseconds since the epoch).
`off` is the viewer's fixed UTC offset in minutes east of UTC, so the
local time value is `t + off * msPerMinute` and JavaScript's
`getTimezoneOffset()` is `-off`. -/

/-- ECMA `Day(t) = floor(t / msPerDay)`. -/
def jsDay (t : Int) : Int := t / msPerDay

/-- `Date.prototype.getUTCFullYear`. -/
def getUTCFullYear (t : Int) : Int := yearFromDays (jsDay t)

/-- `Date.prototype.getUTCMonth` (0-based, as in JavaScript). -/
def getUTCMonth (t : Int) : Int := monthFromDays (jsDay t) - 1

/-- `Date.prototype.getUTCDate` (day of month, 1-based). -/
def getUTCDate (t : Int) : Int := dayFromDays (jsDay t)

/-- `Date.prototype.getUTCHours`: ECMA `HourFromTime`. -/
def getUTCHours (t : Int) : Int := t / msPerHour % 24

/-- `Date.prototype.getUTCMinutes`: ECMA `MinFromTime`. -/
def getUTCMinutes (t : Int) : Int := t / msPerMinute % 60

/-- `Date.UTC(y, mo, d, h, mi, 0, 0)` with 0-based month `mo`;
ECMA `MakeDate(MakeDay(y, mo, d), MakeTime(h, mi, 0, 0))`. -/
def jsDateUTC (y mo d h mi : Int) : Int :=
  daysFromCivil y (mo + 1) d * msPerDay + h * msPerHour + mi * msPerMinute

/-- Instant of local midnight of the local day containing `now`. -/
def localMidnight (off now : Int) : Int :=
  jsDay (now + off * msPerMinute) * msPerDay - off * msPerMinute

/-- ECMA `setHours(h, m, 0, 0)` on a `Date` holding `now`: keep the local
day, replace the local time of day (hours may exceed 23 and roll over,
exactly as ECMA `MakeTime` does). -/
def jsSetHours (off now h m : Int) : Int :=
  localMidnight off now + h * msPerHour + m * msPerMinute

/-- `setMinutes(mi)` on a `Date` holding `t`: keep local day, hour,
second and millisecond, replace the minute (ECMA `MakeTime`). -/
def jsSetMinutes (off t mi : Int) : Int :=
  let lt := t + off * msPerMinute
  jsDay lt * msPerDay + getUTCHours lt * msPerHour + mi * msPerMinute +
    lt % 1000 + lt / 1000 % 60 * 1000 - off * msPerMinute

/-! ## The percent-position pipeline (Time Axis Mapper)

`Math.floor` on an exact rational; the handlers only apply it to
non-negative arguments, where JavaScript's floor and this one agree with
truncation as well. -/

def ratFloor (q : ℚ) : Int := q.num / (q.den : Int)

/-- `Math.max(0, Math.min(100, percentage))` from the mouse handlers. -/
def clampPct (p : ℚ) : ℚ := max 0 (min 100 p)

/-- The common core of `handleTimelineMouseDown` (lines 359-377) and
`handleTimelineMouseMove` (lines 395-439): percent of the 24-hour axis →
minutes from midnight → local `Date` via `setHours` → reassembly of its
UTC calendar fields through `Date.UTC`.  JavaScript's `%` on the
non-negative `minutesFromMidnight` is `q - 60 * Math.floor(q / 60)`. -/
def percentToUTC (off now : Int) (p : ℚ) : Int :=
  let minutesFromMidnight : ℚ := p / 100 * 1440
  let hours : Int := ratFloor (minutesFromMidnight / 60)
  let minutes : Int :=
    ratFloor (minutesFromMidnight - 60 * (ratFloor (minutesFromMidnight / 60) : ℚ))
  let localDate := jsSetHours off now hours minutes
  jsDateUTC (getUTCFullYear localDate) (getUTCMonth localDate)
    (getUTCDate localDate) (getUTCHours localDate) (getUTCMinutes localDate)

/-! ## Timestamp strings

Model of `new Date(string).getTime()` on the ISO-8601 date-time forms
with an explicit UTC designator or numeric offset (the forms the
streaming backend emits).  Forms without an offset are interpreted by
JavaScript as local time and are outside this model: the parser answers
`none` and the theorems about the ingestor assume parseable timestamps.
Implemented over `List Char` by structural recursion. -/

def digitsVal (cs : List Char) : Option Nat :=
  if cs.isEmpty then none
  else
    cs.foldl
      (fun acc c =>
        match acc with
        | none => none
        | some a => if c.isDigit then some (10 * a + (c.toNat - 48)) else none)
      (some 0)

def splitOnChar (sep : Char) (cs : List Char) : List (List Char) :=
  cs.foldr
    (fun c acc =>
      match acc with
      | [] => [[c]]
      | g :: rest => if c = sep then [] :: g :: rest else (c :: g) :: rest)
    [[]]

/-- Parse `YYYY-MM-DD` into a day count since the epoch. -/
def parseDatePart (cs : List Char) : Option Int :=
  match (splitOnChar '-' cs).map digitsVal with
  | [some y, some m, some d] =>
      if 1 ≤ m ∧ m ≤ 12 ∧ 1 ≤ d ∧ d ≤ 31 then
        some (daysFromCivil (Int.ofNat y) (Int.ofNat m) (Int.ofNat d))
      else none
  | _ => none

/-- Parse `HH:MM:SS` or `HH:MM:SS.f+` into milliseconds within the day. -/
def parseTimePart (cs : List Char) : Option Int :=
  match splitOnChar ':' cs with
  | [hh, mm, sf] =>
      match digitsVal hh, digitsVal mm, splitOnChar '.' sf with
      | some h, some mi, [ss] =>
          match digitsVal ss with
          | some sec =>
              if h ≤ 23 ∧ mi ≤ 59 ∧ sec ≤ 59 then
                some (Int.ofNat (h * 3600000 + mi * 60000 + sec * 1000))
              else none
          | none => none
      | some h, some mi, [ss, frac] =>
          match digitsVal ss, digitsVal (frac.take 3), frac.all Char.isDigit with
          | some sec, some fr, true =>
              if h ≤ 23 ∧ mi ≤ 59 ∧ sec ≤ 59 ∧ 1 ≤ frac.length then
                some (Int.ofNat (h * 3600000 + mi * 60000 + sec * 1000 +
                  fr * 10 ^ (3 - min 3 frac.length)))
              else none
          | _, _, _ => none
      | _, _, _ => none
  | _ => none

/-- Parse the zone designator and the preceding time: `...Z`,
`...+HH:MM` or `...-HH:MM`.  Answers time-of-day milliseconds and the
zone offset in minutes east of UTC. -/
def parseTimeZonePart (cs : List Char) : Option (Int × Int) :=
  match splitOnChar '+' cs with
  | [body, zone] =>
      match parseTimePart body, (splitOnChar ':' zone).map digitsVal with
      | some ms, [some zh, some zm] =>
          if zh ≤ 23 ∧ zm ≤ 59 then some (ms, Int.ofNat (zh * 60 + zm))
          else none
      | _, _ => none
  | [single] =>
      if single.getLast? = some 'Z' then
        match parseTimePart (single.dropLast) with
        | some ms => some (ms, 0)
        | none => none
      else
        match splitOnChar '-' single with
        | [body, zone] =>
            match parseTimePart body,
                (splitOnChar ':' zone).map digitsVal with
            | some ms, [some zh, some zm] =>
                if zh ≤ 23 ∧ zm ≤ 59 then
                  some (ms, -Int.ofNat (zh * 60 + zm))
                else none
            | _, _ => none
        | _ => none
  | _ => none

/-- `new Date(s).getTime()` on the supported ISO forms. -/
def parseTimestamp (s : String) : Option Int :=
  match splitOnChar 'T' s.data with
  | [datePart, timePart] =>
      match parseDatePart datePart, parseTimeZonePart timePart with
      | some days, some (ms, zoneMin) =>
          some (days * msPerDay + ms - zoneMin * msPerMinute)
      | _, _ => none
  | _ => none

/-- The sort key `new Date(f.timestamp).getTime()` used by the ingestor's
comparator.  An unparseable timestamp yields `NaN` in JavaScript, making
the comparator inconsistent and the sort order implementation-defined;
the ordering theorems therefore assume parseable timestamps, and the
default value below is never reached under those assumptions. -/
def tsMillis (s : String) : Int := (parseTimestamp s).getD 0

/-! ## Data model (`interface` declarations, lines 21-60) -/

structure AudioData where
  device_name : String
  is_input : Bool
  transcription : String
  audio_file_path : String
  duration_secs : ℚ
  start_offset : ℚ
deriving DecidableEq

structure DeviceMetadata where
  file_path : String
  app_name : String
  window_name : String
  ocr_text : String
  timestamp : String
deriving DecidableEq

structure DeviceFrameResponse where
  device_id : String
  frame : String
  metadata : DeviceMetadata
  audio : List AudioData
deriving DecidableEq

structure StreamTimeSeriesResponse where
  timestamp : String
  devices : List DeviceFrameResponse
deriving DecidableEq

/-- A conversation message.  The source's `id: generateId()` is a random
identifier that no logic ever reads; it is omitted from the model. -/
inductive ChatRole where
  | user
  | assistant
deriving DecidableEq

structure ChatMessage where
  role : ChatRole
  content : String
deriving DecidableEq

/-- The `Timeline` component's state: every `useState` and `useRef` cell
that participates in the core logic.  `esGeneration` counts
`new EventSource(...)` constructions (the ref to the previous source is
closed when a new one is made); `abortCtrl` is the `AbortController`
ref, `some aborted` once a controller exists; `toastCount` counts
notices surfaced through the toast collaborator.  The purely
presentational cells (panel position, hover and drag-offset state,
`osType`) are outside the model. -/
structure TimelineState where
  currentFrame : Option DeviceFrameResponse
  frames : List StreamTimeSeriesResponse
  currentIndex : Int
  isLoading : Bool
  error : Option String
  loadedTimeRange : Option (Int × Int)
  retryCount : Nat
  esGeneration : Nat
  isDragging : Bool
  selectionRange : Option (Int × Int)
  dragStart : Option ℚ
  chatMessages : List ChatMessage
  isAiLoading : Bool
  isStreaming : Bool
  abortCtrl : Option Bool
  isAiPanelExpanded : Bool
  aiInput : String
  toastCount : Nat
deriving DecidableEq

/-- Component-mount state (the `useState` initialisers). -/
def initialTimelineState : TimelineState where
  currentFrame := none
  frames := []
  currentIndex := 0
  isLoading := true
  error := none
  loadedTimeRange := none
  retryCount := 0
  esGeneration := 0
  isDragging := false
  selectionRange := none
  dragStart := none
  chatMessages := []
  isAiLoading := false
  isStreaming := false
  abortCtrl := none
  isAiPanelExpanded := false
  aiInput := ""
  toastCount := 0

/-! ## Frame Stream Ingestor (`setupEventSource`, lines 156-224) -/

/-- The `onmessage` insertion (lines 183-196): dedupe by exact string
equality of `timestamp` against the existing store, then append and sort
the whole array descending by `new Date(timestamp).getTime()`.
`Array.prototype.sort` is stable (ES2019), which `List.mergeSort` models
exactly. -/
def insertFrame (prev : List StreamTimeSeriesResponse)
    (data : StreamTimeSeriesResponse) : List StreamTimeSeriesResponse :=
  if prev.any (fun f => f.timestamp == data.timestamp) then prev
  else
    (prev ++ [data]).mergeSort
      (fun a b => decide (tsMillis b.timestamp ≤ tsMillis a.timestamp))

/-- One inbound stream event after `JSON.parse`:
`malformedJSON` when the parse threw (caught and logged, line 201),
`keepAlive` for the sentinel string, otherwise an object whose
`timestamp` / `devices` fields may each be absent. -/
inductive StreamPayload where
  | malformedJSON
  | keepAlive
  | obj (timestamp : Option String) (devices : Option (List DeviceFrameResponse))

/-- The `onmessage` handler (lines 177-204).  The guard is JavaScript
truthiness of `data.timestamp && data.devices`: a missing field or an
empty `timestamp` string fails it, but a present-and-empty `devices`
array is truthy and passes.  On a passing event: insert into the store,
seed `currentFrame` if unset (`prev || data.devices[0]`), clear
`isLoading`. -/
def onMessage (s : TimelineState) (e : StreamPayload) : TimelineState :=
  match e with
  | .malformedJSON => s
  | .keepAlive => s
  | .obj ots odevs =>
      match ots, odevs with
      | some ts, some devs =>
          if ts = "" then s
          else
            { s with
              frames := insertFrame s.frames ⟨ts, devs⟩
              currentFrame := s.currentFrame.orElse (fun _ => devs.head?)
              isLoading := false }
      | _, _ => s

/-- The `onerror` handler (lines 206-217): a `CLOSED` ready state is the
clean end of the historical backfill (loading cleared, no error); any
other failure records the retry-pending message and closes the source. -/
def onTransportError (s : TimelineState) (closedState : Bool) : TimelineState :=
  if closedState then { s with isLoading := false }
  else { s with error := some "connection lost. retrying..." }

/-- The `onopen` handler (lines 219-223). -/
def onOpen (s : TimelineState) : TimelineState :=
  { s with error := none, retryCount := 0 }

/-- `setupEventSource` (lines 156-175): close any previous source,
compute the window — `startTime` is today's `00:01` local
(`setHours(0, 1, 0, 0)`), `endTime` is two minutes before now
(`setMinutes(getMinutes() - 2)`) — record it, and open a new source. -/
def setupEventSource (off now : Int) (s : TimelineState) : TimelineState :=
  let endTime := jsSetMinutes off now (getUTCMinutes (now + off * msPerMinute) - 2)
  let startTime := jsSetHours off now 0 1
  { s with
    loadedTimeRange := some (startTime, endTime)
    esGeneration := s.esGeneration + 1 }

/-- `handleRefresh` (lines 625-631). -/
def handleRefresh (off now : Int) (s : TimelineState) : TimelineState :=
  setupEventSource off now
    { s with
      frames := []
      currentFrame := none
      currentIndex := 0
      isLoading := true }

/-! ## Range Selector (lines 348-463, 787-797) -/

/-- `handleTimelineMouseDown` (lines 348-383): clamp the percent, enter
the dragging state with the clamped anchor, and commit the degenerate
selection at the mapped instant. -/
def handleTimelineMouseDown (off now : Int) (p : ℚ) (s : TimelineState) :
    TimelineState :=
  let clampedPercentage := clampPct p
  let utcDate := percentToUTC off now clampedPercentage
  { s with
    isDragging := true
    dragStart := some clampedPercentage
    selectionRange := some (utcDate, utcDate) }

/-- `handleTimelineMouseMove` (lines 385-445): while dragging, clamp the
percent and recompute the selection from the anchor and the current
position, smaller first. -/
def handleTimelineMouseMove (off now : Int) (p : ℚ) (s : TimelineState) :
    TimelineState :=
  if !s.isDragging then s
  else
    match s.dragStart with
    | none => s
    | some dragStart =>
        let clampedPercentage := clampPct p
        let utcStartDate := percentToUTC off now (min dragStart clampedPercentage)
        let utcEndDate := percentToUTC off now (max dragStart clampedPercentage)
        { s with selectionRange := some (utcStartDate, utcEndDate) }

/-- `handleTimelineMouseUp` (lines 447-449). -/
def handleTimelineMouseUp (s : TimelineState) : TimelineState :=
  { s with isDragging := false }

/-- The dismiss button of the selection panel (lines 787-797): clear the
selection, collapse the panel, reset the conversation and the input.
Nothing else is touched — in particular no `abort()` is called on
`abortControllerRef`. -/
def dismissSelection (s : TimelineState) : TimelineState :=
  { s with
    selectionRange := none
    isAiPanelExpanded := false
    chatMessages := []
    aiInput := "" }

/-! ## AI Streaming Query Engine (`handleAiSubmit`, lines 465-563) -/

/-- `String.prototype.trim`: strip leading and trailing whitespace. -/
def jsTrim (s : String) : String :=
  String.mk (((s.data.dropWhile Char.isWhitespace).reverse.dropWhile
    Char.isWhitespace).reverse)

/-- One streamed completion chunk: `chunk.choices[0]?.delta?.content`,
absent when the delta carries no content (the code substitutes `""`). -/
def chunkContent (c : Option String) : String := c.getD ""

/-- The `for await` loop body (lines 544-551): accumulate the delta into
`fullResponse` and replace the trailing message by a fresh assistant
message holding the whole accumulation
(`[...prev.slice(0, -1), { role: "assistant", content: fullResponse }]`). -/
def foldChunks (msgs : List ChatMessage) (acc : String) :
    List (Option String) → List ChatMessage × String
  | [] => (msgs, acc)
  | c :: rest =>
      let fullResponse := acc ++ chunkContent c
      foldChunks (msgs.dropLast ++ [⟨ChatRole.assistant, fullResponse⟩])
        fullResponse rest

/-- How the completion request ends: `openFailed` when
`openai.chat.completions.create` itself threw; otherwise the list of
chunks that were received, with `interrupted = true` when the stream
then failed mid-way (both failure shapes land in the `catch` that shows
one toast; the `finally` clears both busy flags). -/
inductive AiStreamOutcome where
  | openFailed
  | streamed (chunks : List (Option String)) (interrupted : Bool)

/-- `handleAiSubmit` (lines 465-563), with the asynchronous stream
summarised by its outcome.  Boundary guard first
(`if (!aiInput.trim() || !selectionRange) return`); past it: append the
user message, clear the input, set the busy flags and the fresh
`AbortController`, append the empty assistant message once the stream
opens, fold the chunks, then run `catch`/`finally`.  The returned `Bool`
reports whether a completion request was opened at all. -/
def handleAiSubmit (s : TimelineState) (outcome : AiStreamOutcome) :
    TimelineState × Bool :=
  if jsTrim s.aiInput = "" then (s, false)
  else
    match s.selectionRange with
    | none => (s, false)
    | some _ =>
        let userMessage : ChatMessage := ⟨ChatRole.user, s.aiInput⟩
        let s1 := { s with
          chatMessages := s.chatMessages ++ [userMessage]
          aiInput := ""
          isAiLoading := true }
        let s2 := { s1 with abortCtrl := some false, isStreaming := true }
        match outcome with
        | .openFailed =>
            ({ s2 with
              toastCount := s2.toastCount + 1
              isAiLoading := false
              isStreaming := false }, true)
        | .streamed chunks interrupted =>
            let msgs0 := s2.chatMessages ++ [⟨ChatRole.assistant, ""⟩]
            let folded := foldChunks msgs0 "" chunks
            let s3 := { s2 with chatMessages := folded.1 }
            let s4 :=
              if interrupted then { s3 with toastCount := s3.toastCount + 1 }
              else s3
            ({ s4 with isAiLoading := false, isStreaming := false }, true)

/-- Modelled from the spec: "construct a local `Date` at that hour/minute
on the reference day, then reinterpret its local calendar fields as UTC
fields (i.e., the UTC instant whose calendar representation equals the
local wall-clock reading)" — the timezone-stripping mapping the spec
ascribes to `localTimeToUTC`, stated for comparison with the code's
`percentToUTC`.  The local calendar fields of an instant are the UTC
fields of the instant shifted by the offset. -/
def specPercentToUTC (off now : Int) (p : ℚ) : Int :=
  let minutesFromMidnight : ℚ := p / 100 * 1440
  let hours : Int := ratFloor (minutesFromMidnight / 60)
  let minutes : Int :=
    ratFloor (minutesFromMidnight - 60 * (ratFloor (minutesFromMidnight / 60) : ℚ))
  let localDate := jsSetHours off now hours minutes
  let lt := localDate + off * msPerMinute
  jsDateUTC (getUTCFullYear lt) (getUTCMonth lt) (getUTCDate lt)
    (getUTCHours lt) (getUTCMinutes lt)

/-- Delivery of a finite sequence of well-formed Frame Batch payloads to
the `onmessage` handler, in arrival order. -/
def ingestBatches (batches : List StreamTimeSeriesResponse)
    (s : TimelineState) : TimelineState :=
  batches.foldl
    (fun st b => onMessage st (.obj (some b.timestamp) (some b.devices))) s

/-- The mouse-move events of a drag, between pointer-down and
pointer-up, in order. -/
def gestureFold (off now : Int) (ps : List ℚ) (s : TimelineState) :
    TimelineState :=
  ps.foldl (fun st p => handleTimelineMouseMove off now p st) s

/-- Percent position on the 24-hour axis of instant `t`, relative to the
local day containing `now` (864000 ms is one percent of a day). -/
def posPercent (off now t : Int) : ℚ :=
  ((t - localMidnight off now : Int) : ℚ) / 864000

/-- Cumulative streamed text after a list of chunks (`fullResponse`). -/
def joinedChunks (cs : List (Option String)) : String :=
  cs.foldl (fun a c => a ++ chunkContent c) ""

/-! ## Concrete sample data for witnesses and counterexamples -/

def sampleDevice : DeviceFrameResponse :=
  { device_id := "device-1"
    frame := "aGVsbG8="
    metadata :=
      { file_path := "/data/frame1.png"
        app_name := "terminal"
        window_name := "shell"
        ocr_text := "hello"
        timestamp := "2025-01-02T03:04:05Z" }
    audio := [] }

def batchA : StreamTimeSeriesResponse :=
  { timestamp := "2025-01-02T03:04:05Z", devices := [sampleDevice] }

/-- Same instant as `batchA`, different timestamp string. -/
def batchASameInstant : StreamTimeSeriesResponse :=
  { timestamp := "2025-01-02T03:04:05.000Z", devices := [sampleDevice] }

def batchB : StreamTimeSeriesResponse :=
  { timestamp := "2025-01-02T03:04:06Z", devices := [sampleDevice] }

/-- A state mid-query: committed selection, a conversation, and a live
completion request (controller present, not aborted, streaming). -/
def streamingState : TimelineState :=
  { initialTimelineState with
    frames := [batchA]
    selectionRange := some (1735786800000, 1735790400000)
    isAiPanelExpanded := true
    chatMessages :=
      [{ role := ChatRole.user, content := "what happened" },
       { role := ChatRole.assistant, content := "The user opened" }]
    isAiLoading := true
    isStreaming := true
    abortCtrl := some false }

/-- A state after a transport failure: the retry-pending error is set. -/
def erroredState : TimelineState :=
  { initialTimelineState with
    error := some "connection lost. retrying..."
    isLoading := false
    frames := [batchA] }

/-- A state with a committed selection but only whitespace in the ask-AI
input box. -/
def emptyInputState : TimelineState :=
  { initialTimelineState with
    aiInput := "   "
    selectionRange := some (1735786800000, 1735790400000)
    isAiPanelExpanded := true }

/-- A state ready to submit a question: committed selection and a
non-blank input. -/
def askState : TimelineState :=
  { initialTimelineState with
    frames := [batchA]
    selectionRange := some (1735786800000, 1735790400000)
    isAiPanelExpanded := true
    aiInput := "what apps did I use?" }

/-! ## Lemmas about the embedded definitions -/

/-- Day-of-year stays within a civil year: the core correctness bound of
the year-extraction formula. -/
theorem doy_bounds (doe e f g N yoe : Int)
    (h0 : 0 ≤ doe) (h1 : doe < 146097)
    (he : e = doe / 1460) (hf : f = doe / 36524) (hg : g = doe / 146096)
    (hN : N = doe - e + f - g) (hyoe : yoe = N / 365) :
    0 ≤ doe - (365 * yoe + yoe / 4 - yoe / 100) ∧
    doe - (365 * yoe + yoe / 4 - yoe / 100) ≤ 365 := by
  have hbe1 : 0 ≤ e := by omega
  have hbe2 : e ≤ 100 := by omega
  have hby1 : 4 * e - 3 ≤ yoe := by omega
  have hby2 : yoe ≤ 4 * e + 4 := by omega
  interval_cases e <;> first | omega | (interval_cases yoe <;> omega)

/-- Generalised round trip: rebuilding a day number from its extracted
calendar fields is the identity. -/
theorem daysFromCivil_fields (z era doe yoe doy mp dd m yr : Int)
    (hera : era = z / 146097) (hdoe : doe = z - era * 146097)
    (hyoe : yoe = (doe - doe / 1460 + doe / 36524 - doe / 146096) / 365)
    (hdoy : doy = doe - (365 * yoe + yoe / 4 - yoe / 100))
    (hmp : mp = (5 * doy + 2) / 153)
    (hdd : dd = doy - (153 * mp + 2) / 5 + 1)
    (hm : m = if mp < 10 then mp + 3 else mp - 9)
    (hyr : yr = if m ≤ 2 then yoe + era * 400 + 1 else yoe + era * 400) :
    daysFromCivil yr m dd = z - 719468 := by
  have hdoe0 : 0 ≤ doe := by omega
  have hdoe1 : doe < 146097 := by omega
  have hyoeb : 0 ≤ yoe ∧ yoe < 400 := by
    clear hm hyr hdd hmp hdoy
    omega
  have hdoyb0 :=
    doy_bounds doe (doe / 1460) (doe / 36524) (doe / 146096)
      (doe - doe / 1460 + doe / 36524 - doe / 146096) yoe hdoe0 hdoe1
      rfl rfl rfl rfl (by omega)
  have hdoyb : 0 ≤ doy ∧ doy ≤ 365 := by omega
  have hmpb : 0 ≤ mp ∧ mp ≤ 11 := by omega
  simp only [daysFromCivil]
  have hy' : (if m ≤ 2 then yr - 1 else yr) = yoe + era * 400 := by
    by_cases h1 : mp < 10
    · rw [if_pos h1] at hm
      have h2 : ¬ m ≤ 2 := by omega
      rw [if_neg h2] at hyr
      rw [if_neg h2]
      omega
    · rw [if_neg h1] at hm
      have h2 : m ≤ 2 := by omega
      rw [if_pos h2] at hyr
      rw [if_pos h2]
      omega
  rw [hy']
  have hera' : (yoe + era * 400) / 400 = era := by omega
  rw [hera']
  have hmp' : (if m > 2 then m - 3 else m + 9) = mp := by
    by_cases h1 : mp < 10
    · rw [if_pos h1] at hm
      have h2 : m > 2 := by omega
      rw [if_pos h2]
      omega
    · rw [if_neg h1] at hm
      have h2 : ¬ m > 2 := by omega
      rw [if_neg h2]
      omega
  rw [hmp']
  have hyy : yoe + era * 400 - era * 400 = yoe := by ring
  rw [hyy]
  omega

/-- Round trip for the three UTC field extractors. -/
theorem daysFromCivil_inv (z : Int) :
    daysFromCivil (yearFromDays z) (monthFromDays z) (dayFromDays z) = z := by
  have h := daysFromCivil_fields (z + 719468) _ _ _ _ _ _ _ _
    rfl rfl rfl rfl rfl rfl rfl rfl
  have h2 : daysFromCivil (yearFromDays z) (monthFromDays z) (dayFromDays z) =
      z + 719468 - 719468 := h
  omega

/-- Reassembling an instant from its five UTC calendar fields (with
seconds and milliseconds zeroed, as the component's code does) truncates
the instant to the minute. -/
theorem jsDateUTC_getUTC (t : Int) :
    jsDateUTC (getUTCFullYear t) (getUTCMonth t) (getUTCDate t)
      (getUTCHours t) (getUTCMinutes t) = t - t % msPerMinute := by
  unfold jsDateUTC getUTCFullYear getUTCMonth getUTCDate getUTCHours getUTCMinutes
  rw [(by ring : monthFromDays (jsDay t) - 1 + 1 = monthFromDays (jsDay t))]
  rw [daysFromCivil_inv (jsDay t)]
  unfold jsDay msPerDay msPerHour msPerMinute
  have h1 : t / 3600000 / 24 = t / 86400000 := by omega
  have h2 : t / 60000 / 60 = t / 3600000 := by omega
  omega

/-- `endTime.setMinutes(endTime.getMinutes() - 2)` is exactly
two minutes before `now`. -/
theorem jsSetMinutes_sub_two (off now : Int) :
    jsSetMinutes off now (getUTCMinutes (now + off * msPerMinute) - 2) =
      now - 2 * msPerMinute := by
  simp only [jsSetMinutes, getUTCMinutes, getUTCHours, jsDay, msPerDay,
    msPerHour, msPerMinute]
  have h1 : (now + off * 60000) / 3600000 / 24 = (now + off * 60000) / 86400000 := by
    omega
  have h2 : (now + off * 60000) / 60000 / 60 = (now + off * 60000) / 3600000 := by
    omega
  have h3 : (now + off * 60000) / 1000 / 60 = (now + off * 60000) / 60000 := by
    omega
  omega

theorem ratFloor_eq_floor (q : ℚ) : ratFloor q = Int.floor q := by
  rw [Rat.floor_def]
  rfl

/-- Splitting minutes-from-midnight into floored hours and a floored
remainder loses nothing: the reassembled total is the floor. -/
theorem hours_minutes_total (m : ℚ) :
    60 * ratFloor (m / 60) + ratFloor (m - 60 * (ratFloor (m / 60) : ℚ)) =
      ratFloor m := by
  simp only [ratFloor_eq_floor]
  have hcast : (60 : ℚ) * ((Int.floor (m / 60) : Int) : ℚ) =
      ((60 * Int.floor (m / 60) : Int) : ℚ) := by
    push_cast
    ring
  rw [hcast, Int.floor_sub_int]
  ring

/-- Closed form of the percent pipeline: the produced instant is local
midnight plus the floored number of minutes denoted by the percent — the
`getUTC*`/`Date.UTC` reassembly is the identity on it (up to the minute
truncation, which is trivial because every term is minute-aligned). -/
theorem percentToUTC_closed (off now : Int) (p : ℚ) :
    percentToUTC off now p =
      localMidnight off now + msPerMinute * ratFloor (p / 100 * 1440) := by
  unfold percentToUTC
  rw [jsDateUTC_getUTC]
  have htot := hours_minutes_total (p / 100 * 1440)
  unfold jsSetHours localMidnight msPerDay msPerHour msPerMinute
  omega

theorem ratFloor_nonneg (q : ℚ) (h : 0 ≤ q) : 0 ≤ ratFloor q := by
  rw [ratFloor_eq_floor]
  exact Int.floor_nonneg.mpr h

theorem ratFloor_le_intCast (q : ℚ) (n : Int) (h : q ≤ (n : ℚ)) : ratFloor q ≤ n := by
  rw [ratFloor_eq_floor]
  calc Int.floor q ≤ Int.floor ((n : ℚ)) := Int.floor_mono h
    _ = n := Int.floor_intCast n

theorem ratFloor_mono (p q : ℚ) (h : p ≤ q) : ratFloor p ≤ ratFloor q := by
  rw [ratFloor_eq_floor, ratFloor_eq_floor]
  exact Int.floor_mono h

/-- The minutes-from-midnight expression, as a linear function of the
percent. -/
theorem minutes_expr (p : ℚ) : p / 100 * 1440 = 72 / 5 * p := by ring

theorem insertFrame_nil (b : StreamTimeSeriesResponse) :
    insertFrame [] b = [b] := by
  unfold insertFrame
  simp only [List.any_nil, Bool.false_eq_true, if_false, List.nil_append]
  exact List.perm_singleton.mp
    (List.mergeSort_perm [b]
      (fun a b => decide (tsMillis b.timestamp ≤ tsMillis a.timestamp)))

/-! ## Claim theorems -/

/-- C6: processing a Frame Batch whose `timestamp` (the dedupe key, an
exact string) already occurs in the Ordered Frame Store leaves the
store's contents — and hence its cardinality — unchanged. -/
theorem c6_duplicate_timestamp_noop (s : TimelineState) (ts : String)
    (devs : List DeviceFrameResponse)
    (h : ∃ f ∈ s.frames, f.timestamp = ts) :
    (onMessage s (.obj (some ts) (some devs))).frames = s.frames := by
  have hany : s.frames.any (fun f => f.timestamp == ts) = true := by
    rcases h with ⟨f, hf, hfts⟩
    exact List.any_eq_true.mpr ⟨f, hf, beq_iff_eq.mpr hfts⟩
  simp only [onMessage, insertFrame, hany, if_true]
  split_ifs <;> rfl

theorem c6_duplicate_timestamp_noop_witness :
    (∃ f ∈ ({ initialTimelineState with frames := [batchA] } :
        TimelineState).frames, f.timestamp = "2025-01-02T03:04:05Z") ∧
    (onMessage { initialTimelineState with frames := [batchA] }
      (.obj (some "2025-01-02T03:04:05Z") (some []))).frames =
      ({ initialTimelineState with frames := [batchA] } :
        TimelineState).frames :=
  ⟨by decide, c6_duplicate_timestamp_noop _ _ _ (by decide)⟩

/-- C9: a submission whose input is empty after trimming, or made with
no committed Selection Range, is rejected by the boundary guard: the
whole component state (conversation, busy flags, toast count) is
returned unchanged and no completion request is opened. -/
theorem c9_precondition_rejected (s : TimelineState)
    (outcome : AiStreamOutcome)
    (h : jsTrim s.aiInput = "" ∨ s.selectionRange = none) :
    handleAiSubmit s outcome = (s, false) := by
  unfold handleAiSubmit
  rcases h with h | h
  · rw [if_pos h]
  · by_cases ht : jsTrim s.aiInput = ""
    · rw [if_pos ht]
    · rw [if_neg ht, h]

theorem c9_precondition_rejected_witness :
    (jsTrim emptyInputState.aiInput = "" ∨
      emptyInputState.selectionRange = none) ∧
    handleAiSubmit emptyInputState (.streamed [] false) =
      (emptyInputState, false) :=
  ⟨Or.inl (by decide),
    c9_precondition_rejected emptyInputState (.streamed [] false)
      (Or.inl (by decide))⟩

/-- C5 counterexample: dismissing the selection while a query is
streaming leaves the query live — `abortControllerRef` is never
aborted (the dismiss handler, lines 787-797, calls no `abort()`), and
the streaming flag is untouched.  This falsifies "aborts any live
(in-flight) AI query". -/
theorem c5_dismiss_counterexample :
    (dismissSelection streamingState).selectionRange = none ∧
    (dismissSelection streamingState).chatMessages = [] ∧
    (dismissSelection streamingState).isStreaming = true ∧
    (dismissSelection streamingState).isAiLoading = true ∧
    (dismissSelection streamingState).abortCtrl = some false := by
  refine ⟨rfl, rfl, rfl, rfl, rfl⟩

/-- C5 amended: the explicit dismiss action clears the Selection Range
(returning the selector to Idle), resets the Conversation to empty and
clears the input, but does not abort a live AI query: the abort
controller and both busy flags are left exactly as they were. -/
theorem c5_dismiss_amended (s : TimelineState) :
    (dismissSelection s).selectionRange = none ∧
    (dismissSelection s).chatMessages = [] ∧
    (dismissSelection s).aiInput = "" ∧
    (dismissSelection s).isAiPanelExpanded = false ∧
    (dismissSelection s).abortCtrl = s.abortCtrl ∧
    (dismissSelection s).isStreaming = s.isStreaming ∧
    (dismissSelection s).isAiLoading = s.isAiLoading ∧
    (dismissSelection s).frames = s.frames ∧
    (dismissSelection s).toastCount = s.toastCount :=
  ⟨rfl, rfl, rfl, rfl, rfl, rfl, rfl, rfl, rfl⟩

/-- C8 counterexample: manual refresh does not clear the error flag —
`handleRefresh` (lines 625-631) never calls `setError(null)`; the flag
survives until the new connection's `onopen` fires. -/
theorem c8_refresh_counterexample :
    (handleRefresh 0 1735787045000 erroredState).error =
      some "connection lost. retrying..." := by
  rfl

/-- C8 amended: manual refresh clears the Ordered Frame Store and the
Playback Cursor, sets the loading flag, and restarts ingestion with the
freshly computed window (00:01 local to now minus two minutes); the
error flag is not cleared by the refresh itself but only when the new
connection's open event fires. -/
theorem c8_refresh_amended (off now : Int) (s : TimelineState) :
    (handleRefresh off now s).frames = [] ∧
    (handleRefresh off now s).currentFrame = none ∧
    (handleRefresh off now s).currentIndex = 0 ∧
    (handleRefresh off now s).isLoading = true ∧
    (handleRefresh off now s).esGeneration = s.esGeneration + 1 ∧
    (handleRefresh off now s).loadedTimeRange =
      some (jsSetHours off now 0 1,
        jsSetMinutes off now (getUTCMinutes (now + off * msPerMinute) - 2)) ∧
    (handleRefresh off now s).error = s.error ∧
    (onOpen (handleRefresh off now s)).error = none :=
  ⟨rfl, rfl, rfl, rfl, rfl, rfl, rfl, rfl⟩

/-- C3 counterexample: an event with a timestamp and a present but
*empty* devices list is not dropped — `data.devices` is truthy for an
empty array, so the batch is inserted and the loading flag cleared. -/
theorem c3_empty_devices_not_dropped :
    (onMessage initialTimelineState
      (.obj (some "2025-01-02T03:04:05Z") (some []))).frames =
      [{ timestamp := "2025-01-02T03:04:05Z", devices := [] }] ∧
    (onMessage initialTimelineState
      (.obj (some "2025-01-02T03:04:05Z") (some []))).isLoading = false := by
  have hne : ("2025-01-02T03:04:05Z" : String) ≠ "" := by decide
  constructor
  · simp only [onMessage, if_neg hne]
    exact insertFrame_nil _
  · simp only [onMessage, if_neg hne]

/-- C3 amended: an event whose payload lacks a `timestamp` (absent, or
the falsy empty string) or lacks a `devices` field is dropped with the
whole component state unchanged — store, Playback Cursor and loading
flag included — and nothing is surfaced to the user.  (A present but
empty devices list, by contrast, passes the truthiness guard.) -/
theorem c3_invalid_payload_dropped (s : TimelineState)
    (ots : Option String) (odevs : Option (List DeviceFrameResponse))
    (h : ots = none ∨ ots = some "" ∨ odevs = none) :
    onMessage s (.obj ots odevs) = s := by
  rcases h with h | h | h
  · subst h
    cases odevs <;> rfl
  · subst h
    cases odevs <;> simp [onMessage]
  · subst h
    cases ots <;> rfl

theorem c3_invalid_payload_dropped_witness :
    ((none : Option String) = none ∨ (none : Option String) = some "" ∨
      (some [sampleDevice] : Option (List DeviceFrameResponse)) = none) ∧
    onMessage initialTimelineState (.obj none (some [sampleDevice])) =
      initialTimelineState :=
  ⟨Or.inl rfl,
    c3_invalid_payload_dropped initialTimelineState none (some [sampleDevice])
      (Or.inl rfl)⟩

theorem foldChunks_closed (base : List ChatMessage) (acc : String)
    (chunks : List (Option String)) :
    foldChunks (base ++ [⟨ChatRole.assistant, acc⟩]) acc chunks =
      (base ++ [⟨ChatRole.assistant,
          chunks.foldl (fun a c => a ++ chunkContent c) acc⟩],
        chunks.foldl (fun a c => a ++ chunkContent c) acc) := by
  induction chunks generalizing acc with
  | nil => simp [foldChunks]
  | cons c rest ih =>
      simp only [foldChunks, List.dropLast_concat, List.foldl_cons]
      exact ih (acc ++ chunkContent c)

theorem foldl_chunks_append (cs : List (Option String)) (acc : String) :
    cs.foldl (fun a c => a ++ chunkContent c) acc = acc ++ joinedChunks cs := by
  induction cs generalizing acc with
  | nil => simp [joinedChunks]
  | cons c rest ih =>
      simp only [List.foldl_cons, joinedChunks]
      rw [ih (acc ++ chunkContent c), ih ("" ++ chunkContent c)]
      have hempty : ("" : String) ++ chunkContent c = chunkContent c := by
        simp
      rw [hempty, String.append_assoc]

theorem joinedChunks_append (xs ys : List (Option String)) :
    joinedChunks (xs ++ ys) = joinedChunks xs ++ joinedChunks ys := by
  unfold joinedChunks
  rw [List.foldl_append]
  rw [foldl_chunks_append ys (List.foldl (fun a c => a ++ chunkContent c) "" xs)]
  rw [foldl_chunks_append xs ""]
  have hempty : ("" : String) ++ joinedChunks xs = joinedChunks xs := by simp
  rw [hempty]
  rfl

/-- C4: during a streaming query, after the round's user message the
Conversation holds exactly one assistant message; its text is the
cumulative concatenation of the deltas received so far, so its length is
non-decreasing across successive delta events — each delta replaces the
trailing assistant message, never appends a new one.  The final
conversation produced by `handleAiSubmit` has the same shape with the
full accumulation. -/
theorem c4_single_growing_assistant (s : TimelineState)
    (chunks : List (Option String)) (interrupted : Bool) (k : Nat)
    (r : Int × Int)
    (hne : jsTrim s.aiInput ≠ "") (hsel : s.selectionRange = some r) :
    (foldChunks ((s.chatMessages ++ [⟨ChatRole.user, s.aiInput⟩]) ++
        [⟨ChatRole.assistant, ""⟩]) "" (chunks.take k)).1 =
      (s.chatMessages ++ [⟨ChatRole.user, s.aiInput⟩]) ++
        [⟨ChatRole.assistant, joinedChunks (chunks.take k)⟩] ∧
    (((foldChunks ((s.chatMessages ++ [⟨ChatRole.user, s.aiInput⟩]) ++
        [⟨ChatRole.assistant, ""⟩]) "" (chunks.take k)).1.drop
        (s.chatMessages ++
          [(⟨ChatRole.user, s.aiInput⟩ : ChatMessage)]).length).countP
        (fun msg => msg.role == ChatRole.assistant)) ≤ 1 ∧
    (joinedChunks (chunks.take k)).length ≤
      (joinedChunks (chunks.take (k + 1))).length ∧
    ((handleAiSubmit s (.streamed chunks interrupted)).1).chatMessages =
      (s.chatMessages ++ [⟨ChatRole.user, s.aiInput⟩]) ++
        [⟨ChatRole.assistant, joinedChunks chunks⟩] := by
  have hclosed : ∀ cs : List (Option String),
      (foldChunks ((s.chatMessages ++ [⟨ChatRole.user, s.aiInput⟩]) ++
          [⟨ChatRole.assistant, ""⟩]) "" cs).1 =
        (s.chatMessages ++ [⟨ChatRole.user, s.aiInput⟩]) ++
          [⟨ChatRole.assistant, joinedChunks cs⟩] := by
    intro cs
    rw [foldChunks_closed]
    rw [foldl_chunks_append]
    have hempty : ("" : String) ++ joinedChunks cs = joinedChunks cs := by simp
    rw [hempty]
  refine ⟨hclosed _, ?_, ?_, ?_⟩
  · rw [hclosed (chunks.take k), List.drop_left]
    simp [List.countP, List.countP.go]
  · rw [List.take_succ]
    cases hk : chunks[k]? with
    | none => simp
    | some c =>
        rw [joinedChunks_append]
        simp [String.length_append]
  · unfold handleAiSubmit
    rw [if_neg hne, hsel]
    cases interrupted <;>
      simp only [] <;>
      rw [hclosed chunks] <;>
      simp

theorem c4_single_growing_assistant_witness :
    (jsTrim askState.aiInput ≠ "") ∧
    (askState.selectionRange = some (1735786800000, 1735790400000)) ∧
    ((foldChunks ((askState.chatMessages ++
        [⟨ChatRole.user, askState.aiInput⟩]) ++
        [⟨ChatRole.assistant, ""⟩]) ""
        (([some "The ", some "user"] : List (Option String)).take 1)).1 =
      (askState.chatMessages ++ [⟨ChatRole.user, askState.aiInput⟩]) ++
        [⟨ChatRole.assistant,
          joinedChunks (([some "The ", some "user"] :
            List (Option String)).take 1)⟩] ∧
    (((foldChunks ((askState.chatMessages ++
        [⟨ChatRole.user, askState.aiInput⟩]) ++
        [⟨ChatRole.assistant, ""⟩]) ""
        (([some "The ", some "user"] : List (Option String)).take 1)).1.drop
        (askState.chatMessages ++
          [(⟨ChatRole.user, askState.aiInput⟩ : ChatMessage)]).length).countP
        (fun msg => msg.role == ChatRole.assistant)) ≤ 1 ∧
    (joinedChunks (([some "The ", some "user"] :
        List (Option String)).take 1)).length ≤
      (joinedChunks (([some "The ", some "user"] :
        List (Option String)).take (1 + 1))).length ∧
    ((handleAiSubmit askState
        (.streamed [some "The ", some "user"] false)).1).chatMessages =
      (askState.chatMessages ++ [⟨ChatRole.user, askState.aiInput⟩]) ++
        [⟨ChatRole.assistant,
          joinedChunks [some "The ", some "user"]⟩]) :=
  ⟨by decide, rfl,
    c4_single_growing_assistant askState [some "The ", some "user"] false 1
      (1735786800000, 1735790400000) (by decide) rfl⟩

theorem insertFrame_mem (prev : List StreamTimeSeriesResponse)
    (d : StreamTimeSeriesResponse) :
    ∀ x ∈ insertFrame prev d, x ∈ prev ∨ x = d := by
  intro x hx
  unfold insertFrame at hx
  by_cases hc : prev.any (fun f => f.timestamp == d.timestamp) = true
  · rw [if_pos hc] at hx
    exact Or.inl hx
  · rw [if_neg hc] at hx
    have := (List.mergeSort_perm (prev ++ [d])
      (fun a b => decide (tsMillis b.timestamp ≤ tsMillis a.timestamp))).mem_iff.mp hx
    rcases List.mem_append.mp this with h | h
    · exact Or.inl h
    · exact Or.inr (List.mem_singleton.mp h)

theorem insertFrame_sorted (prev : List StreamTimeSeriesResponse)
    (d : StreamTimeSeriesResponse)
    (hs : prev.Pairwise (fun a b => tsMillis b.timestamp < tsMillis a.timestamp))
    (hd : ∀ f ∈ prev, tsMillis f.timestamp ≠ tsMillis d.timestamp) :
    (insertFrame prev d).Pairwise
      (fun a b => tsMillis b.timestamp < tsMillis a.timestamp) := by
  unfold insertFrame
  by_cases hc : prev.any (fun f => f.timestamp == d.timestamp) = true
  · rw [if_pos hc]
    exact hs
  · rw [if_neg hc]
    have htrans : ∀ a b c : StreamTimeSeriesResponse,
        (fun a b => decide (tsMillis b.timestamp ≤ tsMillis a.timestamp)) a b = true →
        (fun a b => decide (tsMillis b.timestamp ≤ tsMillis a.timestamp)) b c = true →
        (fun a b => decide (tsMillis b.timestamp ≤ tsMillis a.timestamp)) a c = true := by
      intro a b c h1 h2
      simp only [decide_eq_true_eq] at h1 h2 ⊢
      omega
    have htotal : ∀ a b : StreamTimeSeriesResponse,
        ((fun a b => decide (tsMillis b.timestamp ≤ tsMillis a.timestamp)) a b ||
         (fun a b => decide (tsMillis b.timestamp ≤ tsMillis a.timestamp)) b a) = true := by
      intro a b
      simp only [Bool.or_eq_true, decide_eq_true_eq]
      omega
    have hsorted := List.sorted_mergeSort htrans htotal (prev ++ [d])
    have hperm := List.mergeSort_perm (prev ++ [d])
      (fun a b => decide (tsMillis b.timestamp ≤ tsMillis a.timestamp))
    have hne : (prev ++ [d]).Pairwise
        (fun a b => tsMillis a.timestamp ≠ tsMillis b.timestamp) := by
      rw [List.pairwise_append]
      refine ⟨hs.imp (fun h => ?_), List.pairwise_singleton _ _, ?_⟩
      · omega
      · intro x hxp y hy
        rw [List.mem_singleton.mp hy]
        exact hd x hxp
    have hne2 : (List.mergeSort (prev ++ [d])
        (fun a b => decide (tsMillis b.timestamp ≤ tsMillis a.timestamp))).Pairwise
        (fun a b => tsMillis a.timestamp ≠ tsMillis b.timestamp) :=
      (hperm.pairwise_iff (fun h => h.symm)).mpr hne
    exact (hsorted.and hne2).imp (fun h => by
      rcases h with ⟨h1, h2⟩
      simp only [decide_eq_true_eq] at h1
      omega)

theorem onMessage_obj_frames (s : TimelineState) (ts : String)
    (devs : List DeviceFrameResponse) :
    (onMessage s (.obj (some ts) (some devs))).frames =
      if ts = "" then s.frames else insertFrame s.frames ⟨ts, devs⟩ := by
  simp only [onMessage]
  split_ifs <;> rfl

theorem ingest_sorted_aux (batches : List StreamTimeSeriesResponse) :
    ∀ s : TimelineState,
      s.frames.Pairwise
        (fun a b => tsMillis b.timestamp < tsMillis a.timestamp) →
      (∀ f ∈ s.frames, ∀ b ∈ batches,
        tsMillis f.timestamp ≠ tsMillis b.timestamp) →
      batches.Pairwise
        (fun a b => tsMillis a.timestamp ≠ tsMillis b.timestamp) →
      ((ingestBatches batches s).frames).Pairwise
        (fun a b => tsMillis b.timestamp < tsMillis a.timestamp) := by
  induction batches with
  | nil =>
      intro s hs _ _
      exact hs
  | cons b rest ih =>
      intro s hs hcross hpw
      have hstep : ingestBatches (b :: rest) s =
          ingestBatches rest
            (onMessage s (.obj (some b.timestamp) (some b.devices))) := rfl
      rw [hstep]
      have hbeta : (⟨b.timestamp, b.devices⟩ : StreamTimeSeriesResponse) = b := rfl
      apply ih
      · rw [onMessage_obj_frames, hbeta]
        split_ifs with hts
        · exact hs
        · exact insertFrame_sorted s.frames b hs
            (fun f hf => hcross f hf b (List.mem_cons_self b rest))
      · intro f hf p hp
        rw [onMessage_obj_frames, hbeta] at hf
        split_ifs at hf with hts
        · exact hcross f hf p (List.mem_cons_of_mem b hp)
        · rcases insertFrame_mem s.frames b f hf with h | h
          · exact hcross f h p (List.mem_cons_of_mem b hp)
          · subst h
            exact (List.pairwise_cons.mp hpw).1 p hp
      · exact (List.pairwise_cons.mp hpw).2

/-- C1: for every finite sequence of inbound Frame Batches whose
timestamps denote pairwise-distinct instants (all parseable), the
Ordered Frame Store after all insertions is sorted strictly descending
by timestamp — whatever the arrival order (the statement quantifies over
every arrival sequence, so every permutation is covered). -/
theorem c1_store_sorted_descending (batches : List StreamTimeSeriesResponse)
    (hvalid : ∀ b ∈ batches, (parseTimestamp b.timestamp).isSome = true)
    (hdist : batches.Pairwise
      (fun a b => tsMillis a.timestamp ≠ tsMillis b.timestamp)) :
    ((ingestBatches batches initialTimelineState).frames).Pairwise
      (fun a b => tsMillis b.timestamp < tsMillis a.timestamp) := by
  apply ingest_sorted_aux batches initialTimelineState
  · exact List.Pairwise.nil
  · intro f hf
    simp [initialTimelineState] at hf
  · exact hdist

/-- Witness for C1 at Scenario A's input: batches at `T+1s` then `T`. -/
theorem c1_store_sorted_descending_witness :
    (∀ b ∈ [batchB, batchA], (parseTimestamp b.timestamp).isSome = true) ∧
    ([batchB, batchA].Pairwise
      (fun a b => tsMillis a.timestamp ≠ tsMillis b.timestamp)) ∧
    ((ingestBatches [batchB, batchA] initialTimelineState).frames).Pairwise
      (fun a b => tsMillis b.timestamp < tsMillis a.timestamp) :=
  ⟨by decide, by decide,
    c1_store_sorted_descending [batchB, batchA] (by decide) (by decide)⟩

theorem insertFrame_of_sorted (prev : List StreamTimeSeriesResponse)
    (d : StreamTimeSeriesResponse)
    (hc : (prev.any fun f => f.timestamp == d.timestamp) = false)
    (hsorted : (prev ++ [d]).Pairwise
      (fun a b => decide (tsMillis b.timestamp ≤ tsMillis a.timestamp) = true)) :
    insertFrame prev d = prev ++ [d] := by
  unfold insertFrame
  rw [if_neg (by simp [hc])]
  exact List.mergeSort_of_sorted hsorted

/-- C10: the ingestor dedupes by the raw `timestamp` string but sorts by
the parsed instant.  A batch whose timestamp string is fresh is inserted
even when it denotes the instant of a stored batch, so the store can
hold two Frame Batches for one instant; which of the two comes first
depends only on arrival order (the stable sort ties them), as the two
concrete runs show. -/
theorem c10_string_dedupe_instant_sort (s : TimelineState)
    (b : StreamTimeSeriesResponse)
    (hfresh : ∀ f ∈ s.frames, f.timestamp ≠ b.timestamp)
    (hts : b.timestamp ≠ "") :
    (onMessage s (.obj (some b.timestamp) (some b.devices))).frames.length =
      s.frames.length + 1 ∧
    b ∈ (onMessage s (.obj (some b.timestamp) (some b.devices))).frames ∧
    batchA.timestamp ≠ batchASameInstant.timestamp ∧
    tsMillis batchA.timestamp = tsMillis batchASameInstant.timestamp ∧
    (ingestBatches [batchA, batchASameInstant]
      initialTimelineState).frames = [batchA, batchASameInstant] ∧
    (ingestBatches [batchASameInstant, batchA]
      initialTimelineState).frames = [batchASameInstant, batchA] := by
  have hbeta : (⟨b.timestamp, b.devices⟩ : StreamTimeSeriesResponse) = b := rfl
  have hc : (s.frames.any fun f => f.timestamp == b.timestamp) = false := by
    cases hh : s.frames.any fun f => f.timestamp == b.timestamp with
    | false => rfl
    | true =>
        rcases List.any_eq_true.mp hh with ⟨f, hf, hbeq⟩
        exact absurd (beq_iff_eq.mp hbeq) (hfresh f hf)
  have hframes : (onMessage s
      (.obj (some b.timestamp) (some b.devices))).frames =
      (s.frames ++ [b]).mergeSort
        (fun a b => decide (tsMillis b.timestamp ≤ tsMillis a.timestamp)) := by
    rw [onMessage_obj_frames, hbeta, if_neg hts]
    unfold insertFrame
    rw [if_neg (by simp [hc])]
  refine ⟨?_, ?_, by decide, by decide, ?_, ?_⟩
  · rw [hframes, List.length_mergeSort]
    simp
  · rw [hframes]
    exact (List.mergeSort_perm _ _).mem_iff.mpr
      (List.mem_append.mpr (Or.inr (List.mem_singleton.mpr rfl)))
  · have h1 : (onMessage initialTimelineState
        (.obj (some batchA.timestamp) (some batchA.devices))).frames =
        [batchA] := by
      rw [onMessage_obj_frames, if_neg (by decide)]
      exact insertFrame_nil batchA
    have h2 : ingestBatches [batchA, batchASameInstant] initialTimelineState =
        onMessage (onMessage initialTimelineState
          (.obj (some batchA.timestamp) (some batchA.devices)))
          (.obj (some batchASameInstant.timestamp)
            (some batchASameInstant.devices)) := rfl
    rw [h2, onMessage_obj_frames, if_neg (by decide), h1]
    exact insertFrame_of_sorted [batchA] batchASameInstant (by decide) (by decide)
  · have h1 : (onMessage initialTimelineState
        (.obj (some batchASameInstant.timestamp)
          (some batchASameInstant.devices))).frames =
        [batchASameInstant] := by
      rw [onMessage_obj_frames, if_neg (by decide)]
      exact insertFrame_nil batchASameInstant
    have h2 : ingestBatches [batchASameInstant, batchA] initialTimelineState =
        onMessage (onMessage initialTimelineState
          (.obj (some batchASameInstant.timestamp)
            (some batchASameInstant.devices)))
          (.obj (some batchA.timestamp) (some batchA.devices)) := rfl
    rw [h2, onMessage_obj_frames, if_neg (by decide), h1]
    exact insertFrame_of_sorted [batchASameInstant] batchA (by decide) (by decide)

theorem c10_string_dedupe_instant_sort_witness :
    (∀ f ∈ ({ initialTimelineState with frames := [batchA] } :
        TimelineState).frames, f.timestamp ≠ batchASameInstant.timestamp) ∧
    (batchASameInstant.timestamp ≠ "") ∧
    (onMessage { initialTimelineState with frames := [batchA] }
      (.obj (some batchASameInstant.timestamp)
        (some batchASameInstant.devices))).frames.length =
      ({ initialTimelineState with frames := [batchA] } :
        TimelineState).frames.length + 1 :=
  ⟨by decide, by decide,
    (c10_string_dedupe_instant_sort
      { initialTimelineState with frames := [batchA] } batchASameInstant
      (by decide) (by decide)).1⟩

theorem clampPct_bounds (p : ℚ) : 0 ≤ clampPct p ∧ clampPct p ≤ 100 := by
  unfold clampPct
  exact ⟨le_max_left 0 _, max_le (by norm_num) (min_le_left _ _)⟩

theorem pct_minutes_bounds (q : ℚ) (h0 : 0 ≤ q) (h1 : q ≤ 100) :
    0 ≤ ratFloor (q / 100 * 1440) ∧ ratFloor (q / 100 * 1440) ≤ 1440 := by
  constructor
  · apply ratFloor_nonneg
    rw [minutes_expr]
    have := mul_nonneg (by norm_num : (0 : ℚ) ≤ 72 / 5) h0
    linarith
  · apply ratFloor_le_intCast
    rw [minutes_expr]
    push_cast
    linarith

theorem percentToUTC_bounds (off now : Int) (q : ℚ)
    (h0 : 0 ≤ q) (h1 : q ≤ 100) :
    localMidnight off now ≤ percentToUTC off now q ∧
    percentToUTC off now q ≤ localMidnight off now + msPerDay := by
  rw [percentToUTC_closed]
  have hb := pct_minutes_bounds q h0 h1
  unfold msPerDay msPerMinute
  omega

theorem percentToUTC_mono (off now : Int) (q r : ℚ) (h : q ≤ r) :
    percentToUTC off now q ≤ percentToUTC off now r := by
  rw [percentToUTC_closed, percentToUTC_closed]
  have hmono := ratFloor_mono (q / 100 * 1440) (r / 100 * 1440)
    (by rw [minutes_expr, minutes_expr]; linarith)
  unfold msPerMinute
  omega

theorem posPercent_bounds (off now t : Int)
    (h1 : localMidnight off now ≤ t)
    (h2 : t ≤ localMidnight off now + msPerDay) :
    0 ≤ posPercent off now t ∧ posPercent off now t ≤ 100 := by
  unfold posPercent
  constructor
  · apply div_nonneg _ (by norm_num)
    have h : (0 : Int) ≤ t - localMidnight off now := by omega
    exact_mod_cast h
  · rw [div_le_iff (by norm_num : (0 : ℚ) < 864000)]
    have h : (t - localMidnight off now : Int) ≤ 86400000 := by
      unfold msPerDay at h2
      omega
    calc ((t - localMidnight off now : Int) : ℚ) ≤ (86400000 : ℚ) := by
          exact_mod_cast h
      _ = 100 * 864000 := by norm_num

theorem mouseMove_char (off now : Int) (q : ℚ) (st : TimelineState) (a0 : ℚ)
    (hd : st.isDragging = true) (hds : st.dragStart = some a0) :
    (handleTimelineMouseMove off now q st).isDragging = st.isDragging ∧
    (handleTimelineMouseMove off now q st).dragStart = st.dragStart ∧
    (handleTimelineMouseMove off now q st).selectionRange =
      some (percentToUTC off now (min a0 (clampPct q)),
        percentToUTC off now (max a0 (clampPct q))) := by
  refine ⟨?_, ?_, ?_⟩ <;> simp [handleTimelineMouseMove, hd, hds]

theorem gestureFold_inv (off now : Int) (a0 : ℚ)
    (ha : 0 ≤ a0 ∧ a0 ≤ 100) (ps : List ℚ) :
    ∀ st : TimelineState, st.isDragging = true → st.dragStart = some a0 →
      (∃ x y : Int, st.selectionRange = some (x, y) ∧ x ≤ y ∧
        localMidnight off now ≤ x ∧ y ≤ localMidnight off now + msPerDay) →
      (gestureFold off now ps st).isDragging = true ∧
      (gestureFold off now ps st).dragStart = some a0 ∧
      (∃ x y : Int, (gestureFold off now ps st).selectionRange = some (x, y) ∧
        x ≤ y ∧ localMidnight off now ≤ x ∧
        y ≤ localMidnight off now + msPerDay) := by
  induction ps with
  | nil =>
      intro st h1 h2 h3
      exact ⟨h1, h2, h3⟩
  | cons q rest ih =>
      intro st hd hds hsel
      have hstep : gestureFold off now (q :: rest) st =
          gestureFold off now rest (handleTimelineMouseMove off now q st) := rfl
      rw [hstep]
      have hch := mouseMove_char off now q st a0 hd hds
      apply ih
      · rw [hch.1, hd]
      · rw [hch.2.1, hds]
      · rw [hch.2.2]
        have hcq := clampPct_bounds q
        have hmin0 : 0 ≤ min a0 (clampPct q) := le_min ha.1 hcq.1
        have hmin1 : min a0 (clampPct q) ≤ 100 :=
          le_trans (min_le_left _ _) ha.2
        have hmax0 : 0 ≤ max a0 (clampPct q) := le_trans ha.1 (le_max_left _ _)
        have hmax1 : max a0 (clampPct q) ≤ 100 := max_le ha.2 hcq.2
        refine ⟨percentToUTC off now (min a0 (clampPct q)),
          percentToUTC off now (max a0 (clampPct q)), rfl, ?_, ?_, ?_⟩
        · exact percentToUTC_mono off now _ _ (min_le_max)
        · exact (percentToUTC_bounds off now _ hmin0 hmin1).1
        · exact (percentToUTC_bounds off now _ hmax0 hmax1).2

/-- C7: any drag gesture — pointer-down at `p1`, moves at `ps`, then
pointer-up, all raw percents in `[-50, 150]` — commits a Selection
Range whose endpoints correspond to percents inside `[0, 100]` with
`start ≤ end`; a click without any move commits a legal zero-width
selection with `start = end`. -/
theorem c7_committed_selection_clamped (off now : Int) (p1 : ℚ)
    (ps : List ℚ) (s : TimelineState)
    (h1 : -50 ≤ p1 ∧ p1 ≤ 150) (hps : ∀ p ∈ ps, -50 ≤ p ∧ p ≤ 150) :
    ∃ a b : Int,
      (handleTimelineMouseUp (gestureFold off now ps
        (handleTimelineMouseDown off now p1 s))).selectionRange =
        some (a, b) ∧
      a ≤ b ∧
      0 ≤ posPercent off now a ∧ posPercent off now a ≤ 100 ∧
      0 ≤ posPercent off now b ∧ posPercent off now b ≤ 100 ∧
      (ps = [] → a = b) := by
  have hcb := clampPct_bounds p1
  have hvb := percentToUTC_bounds off now (clampPct p1) hcb.1 hcb.2
  have hinv := gestureFold_inv off now (clampPct p1) hcb ps
    (handleTimelineMouseDown off now p1 s) rfl rfl
    ⟨percentToUTC off now (clampPct p1), percentToUTC off now (clampPct p1),
      rfl, le_refl _, hvb.1, hvb.2⟩
  obtain ⟨x, y, hxy, hle, hb1, hb2⟩ := hinv.2.2
  have hxb : localMidnight off now ≤ x ∧
      x ≤ localMidnight off now + msPerDay := ⟨hb1, le_trans hle hb2⟩
  have hyb : localMidnight off now ≤ y ∧
      y ≤ localMidnight off now + msPerDay := ⟨le_trans hb1 hle, hb2⟩
  have hpx := posPercent_bounds off now x hxb.1 hxb.2
  have hpy := posPercent_bounds off now y hyb.1 hyb.2
  refine ⟨x, y, hxy, hle, hpx.1, hpx.2, hpy.1, hpy.2, ?_⟩
  intro hnil
  subst hnil
  have hsel : (handleTimelineMouseDown off now p1 s).selectionRange =
      some (percentToUTC off now (clampPct p1),
        percentToUTC off now (clampPct p1)) := rfl
  have hxy2 : some (percentToUTC off now (clampPct p1),
      percentToUTC off now (clampPct p1)) = some (x, y) :=
    hsel ▸ hxy
  have := Option.some.inj hxy2
  have hx := congrArg Prod.fst this
  have hy := congrArg Prod.snd this
  simp at hx hy
  omega

/-- Witness for C7 at Scenario C's input: drag from percent 70 to 30. -/
theorem c7_committed_selection_clamped_witness :
    ((-50 : ℚ) ≤ 70 ∧ (70 : ℚ) ≤ 150) ∧
    (∀ p ∈ ([30] : List ℚ), -50 ≤ p ∧ p ≤ 150) ∧
    (∃ a b : Int,
      (handleTimelineMouseUp (gestureFold 120 1735787045000 [30]
        (handleTimelineMouseDown 120 1735787045000 70
          initialTimelineState))).selectionRange = some (a, b) ∧
      a ≤ b ∧
      0 ≤ posPercent 120 1735787045000 a ∧
      posPercent 120 1735787045000 a ≤ 100 ∧
      0 ≤ posPercent 120 1735787045000 b ∧
      posPercent 120 1735787045000 b ≤ 100 ∧
      (([30] : List ℚ) = [] → a = b)) :=
  ⟨⟨by norm_num, by norm_num⟩,
    by
      intro p hp
      rw [List.mem_singleton.mp hp]
      exact ⟨by norm_num, by norm_num⟩,
    c7_committed_selection_clamped 120 1735787045000 70 [30]
      initialTimelineState ⟨by norm_num, by norm_num⟩
      (by
        intro p hp
        rw [List.mem_singleton.mp hp]
        exact ⟨by norm_num, by norm_num⟩)⟩

/-- C2 counterexample: viewer at UTC+2 (`off = 120`), reference instant
2025-01-02T03:04:05Z, percent 50.  The derived local wall-clock reading
is 12:00, but the committed instant is 2025-01-02T10:00Z — the true
instant of local noon — whose UTC calendar representation reads 10:00,
not 12:00.  The code reads `getUTC*` fields (not local fields) before
`Date.UTC`, so the mapping is the identity on the instant, not the
claimed timezone-stripping reinterpretation, which would produce
2025-01-02T12:00Z here. -/
theorem c2_reinterpretation_counterexample :
    ratFloor (clampPct 50 / 100 * 1440 / 60) = 12 ∧
    (handleTimelineMouseDown 120 1735787045000 50
      initialTimelineState).selectionRange =
      some (1735812000000, 1735812000000) ∧
    getUTCHours 1735812000000 = 10 ∧
    getUTCMinutes 1735812000000 = 0 ∧
    specPercentToUTC 120 1735787045000 (clampPct 50) = 1735819200000 ∧
    percentToUTC 120 1735787045000 (clampPct 50) ≠
      specPercentToUTC 120 1735787045000 (clampPct 50) := by
  have hcl : clampPct 50 = (50 : ℚ) := by decide
  have hm : (50 : ℚ) / 100 * 1440 = 720 := by norm_num
  have hh : ratFloor ((50 : ℚ) / 100 * 1440 / 60) = 12 := by
    have h12 : (50 : ℚ) / 100 * 1440 / 60 = 12 := by norm_num
    rw [h12]
    decide
  have hmi : ratFloor ((50 : ℚ) / 100 * 1440 - 60 * ((12 : Int) : ℚ)) = 0 := by
    have h0 : (50 : ℚ) / 100 * 1440 - 60 * ((12 : Int) : ℚ) = 0 := by
      push_cast
      norm_num
    rw [h0]
    decide
  have h720 : ratFloor ((50 : ℚ) / 100 * 1440) = 720 := by
    rw [hm]
    decide
  have hp1 : percentToUTC 120 1735787045000 (clampPct 50) = 1735812000000 := by
    rw [hcl, percentToUTC_closed, h720]
    decide
  have hs1 : specPercentToUTC 120 1735787045000 (clampPct 50) =
      1735819200000 := by
    rw [hcl]
    simp only [specPercentToUTC]
    rw [hh, hmi]
    decide
  refine ⟨by rw [hcl]; exact hh, ?_, by decide, by decide, hs1, ?_⟩
  · have hsel : (handleTimelineMouseDown 120 1735787045000 50
        initialTimelineState).selectionRange =
        some (percentToUTC 120 1735787045000 (clampPct 50),
          percentToUTC 120 1735787045000 (clampPct 50)) := rfl
    rw [hsel, hp1]
  · rw [hp1, hs1]
    decide

/-- C2 amended: for every percent `p` in `[0, 100]`, the mapping is a
*true* conversion, not a timezone-stripping reinterpretation: reading
the `getUTC*` fields and reassembling them through `Date.UTC` is the
identity, so the committed instant is exactly the local `Date` built by
`setHours` from the derived hour and minute — the instant at which the
viewer's wall clock shows that reading.  The claimed reinterpretation
(`specPercentToUTC`) agrees with it only when the viewer's UTC offset
is zero. -/
theorem c2_true_conversion (off now : Int) (p : ℚ)
    (hp : 0 ≤ p ∧ p ≤ 100) :
    percentToUTC off now p =
      jsSetHours off now (ratFloor (p / 100 * 1440 / 60))
        (ratFloor (p / 100 * 1440 -
          60 * (ratFloor (p / 100 * 1440 / 60) : ℚ))) ∧
    (off = 0 → percentToUTC off now p = specPercentToUTC off now p) := by
  constructor
  · rw [percentToUTC_closed]
    have htot := hours_minutes_total (p / 100 * 1440)
    unfold jsSetHours msPerHour msPerMinute
    omega
  · intro hoff
    subst hoff
    unfold percentToUTC specPercentToUTC
    simp

theorem c2_true_conversion_witness :
    ((0 : ℚ) ≤ 50 ∧ (50 : ℚ) ≤ 100) ∧
    (percentToUTC 120 1735787045000 50 =
      jsSetHours 120 1735787045000 (ratFloor ((50 : ℚ) / 100 * 1440 / 60))
        (ratFloor ((50 : ℚ) / 100 * 1440 -
          60 * (ratFloor ((50 : ℚ) / 100 * 1440 / 60) : ℚ))) ∧
    ((120 : Int) = 0 → percentToUTC 120 1735787045000 50 =
      specPercentToUTC 120 1735787045000 50)) :=
  ⟨⟨by norm_num, by norm_num⟩,
    c2_true_conversion 120 1735787045000 50 ⟨by norm_num, by norm_num⟩⟩
